import Mathlib

/-!
Shallow embedding of the deferred-cleanup / wait-for-state subsystem of
`tempest/scenario/manager.py`.

Remote service clients (nova, neutron, cinder, glance, ironic) are the
collaborator boundary: they are modelled by an `Env` record of pure functions
that decide, for each remote call, what body it returns or which exception it
raises.  Each embedded method returns the list of remote-call events it
performed (its trace), the updated test state (the cleanup ledger), and an
`Except` value standing for normal return or a raised exception.

`addCleanup` is the standard testtools primitive: cleanups run at teardown in
reverse registration order (LIFO), an exception raised by one cleanup is
recorded and the remaining cleanups still run.  `setUp` registers
`_wait_for_cleanups` first, so it runs last.
-/

namespace Tempest

/-- Substring helpers modelling Python's `in` operator on strings. -/
def startsWithPat : List Char → List Char → Bool
  | [], _ => true
  | _ :: _, [] => false
  | a :: as, b :: bs => a == b && startsWithPat as bs

def containsSubAux (pat : List Char) : List Char → Bool
  | [] => pat.isEmpty
  | c :: rest => startsWithPat pat (c :: rest) || containsSubAux pat rest

/-- `containsSubstr s pat` models Python `pat in s`. -/
def containsSubstr (s pat : String) : Bool :=
  containsSubAux pat.data s.data

/-- Exception taxonomy of `tempest.exceptions` as used by the scenario code. -/
inductive Exc where
  | notFound
  | conflict (error_string : String)
  | sshTimeout
  | timeoutException (msg : String)
  | assertionError (msg : String)
  | other (msg : String)
deriving DecidableEq, Repr

/-- Body returned by the compute client for a server. -/
structure Server where
  id : String
  name : String
deriving DecidableEq, Repr

/-- Body returned by the network client for a network. -/
structure Network where
  id : String
  name : String
  tenant_id : String
deriving DecidableEq, Repr

/-- Body returned by the network client for a subnet; cidr blocks are
numbered candidates of the tenant address space. -/
structure Subnet where
  id : String
  cidr : Nat
deriving DecidableEq, Repr

/-- Body returned for a neutron security group. -/
structure Secgroup where
  id : String
  tenant_id : String
deriving DecidableEq, Repr

/-- Body returned for a neutron security group rule. -/
structure SecgroupRule where
  id : String
  direction : String
  protocol : String
  tenant_id : String
  security_group_id : String
deriving DecidableEq, Repr

/-- Body returned by the ironic client for a bare-metal node. -/
structure Node where
  uuid : String
deriving DecidableEq, Repr

/-- The delete calls that cleanup actions registered by the scenario
helpers can issue through `delete_wrapper`. -/
inductive DeleteCall where
  | server (id : String)
  | network (id : String)
  | subnet (id : String)
  | secgroupRule (id : String)
  | floatingIp (id : String)
deriving DecidableEq, Repr

/-- Which waiter callable an async wait descriptor refers to.
`serverTermination` is `servers_client.wait_for_server_termination`;
`abstractW` stands for any other resource-deletion waiter. -/
inductive WaiterKind where
  | serverTermination
  | abstractW (k : Nat)
deriving DecidableEq, Repr

/-- The `wait_dict` built by `addCleanup_with_wait`:
`{'waiter_callable': waiter, thing_id_param: thing_id}`. -/
structure WaitDescriptor where
  waiter : WaiterKind
  thing_id_param : String
  thing_id : String
deriving DecidableEq, Repr

/-- A cleanup registered with testtools `addCleanup`.
`waitForCleanupsItem` is `self._wait_for_cleanups` registered in `setUp`;
`generic` stands for an arbitrary synchronous cleanup action. -/
inductive CleanupItem where
  | waitForCleanupsItem
  | generic (label : Nat)
  | waitServerTerminationItem (server_id : String)
  | deleteWrapperItem (d : DeleteCall)
deriving DecidableEq, Repr

/-- Observable remote-call events, in program order. -/
inductive Ev where
  | createServer (name : String)
  | getServer (id : String)
  | waitServerStatus (id status : String)
  | waitServerTermination (id : String)
  | abstractWait (k : Nat) (id : String)
  | deleteCall (d : DeleteCall)
  | cleanupRun (label : Nat)
  | createNetwork (name : String)
  | listSubnets (cidr : Nat)
  | createSubnet (cidr : Nat)
  | createSecgroupRule (direction protocol : String)
  | novaCreateSecgroupRule (ip_proto : String)
  | ping (ip : String) (should_succeed : Bool)
  | sshConnect (ip : String)
  | logNetDebug
  | listServers
  | getConsoleOutput (id : String)
  | waitNodeAssoc (instance_id : String) (timeout : Nat)
  | getNodeByInstance (instance_id : String)
  | checkNodeState (node_id state_attr : String) (targets : List String) (timeout : Nat)
deriving DecidableEq, Repr

/-- Per-test state: the testtools cleanup stack (in registration order;
executed reversed) and `self.cleanup_waits`. -/
structure TestState where
  cleanups : List CleanupItem
  cleanup_waits : List WaitDescriptor
deriving DecidableEq, Repr

/-- The collaborator boundary: outcomes of every remote call.
`none` for an `Option Exc` field means the call succeeds. -/
structure Env where
  createServer : String → Server
  getServer : String → Server
  waitServerStatusExc : String → String → Option Exc
  deleteCallExc : DeleteCall → Option Exc
  waiterExc : WaiterKind → String → Option Exc
  createNetwork : String → String → Network
  list_subnets : String → Nat → List String
  create_subnet : Nat → Except Exc Subnet
  createSecgroupRule : String → String → Except Exc SecgroupRule
  novaCreateRule : String → Except Exc String
  pingOk : String → Bool → Bool
  sshAuthExc : String → Option Exc
  console_output_enabled : Bool
  list_servers : Except Exc (List Server)
  get_console_output : String → Except Exc Unit
  waitNodeOk : String → Bool
  nodeOf : String → Node
  nodeStateOk : String → String → List String → Nat → Bool
  association_timeout : Nat
  power_timeout : Nat
  active_timeout : Nat

/-- `ScenarioTest.setUp`: fresh `cleanup_waits` and
`self.addCleanup(self._wait_for_cleanups)` as the first registration. -/
def setUpState : TestState :=
  ⟨[CleanupItem.waitForCleanupsItem], []⟩

/-- testtools `addCleanup`: push a cleanup (executed LIFO at teardown). -/
def addCleanup (s : TestState) (c : CleanupItem) : TestState :=
  ⟨s.cleanups ++ [c], s.cleanup_waits⟩

/-- `ScenarioTest.addCleanup_with_wait`: register the cleanup callable via
`addCleanup`, then append the wait descriptor to `cleanup_waits`. -/
def addCleanup_with_wait (s : TestState) (waiter : WaiterKind)
    (thing_id thing_id_param : String) (cleanup_item : CleanupItem) : TestState :=
  let s1 := addCleanup s cleanup_item
  ⟨s1.cleanups, s1.cleanup_waits ++ [⟨waiter, thing_id_param, thing_id⟩]⟩

/-- `ScenarioTest.delete_wrapper`: call the delete method, swallow
`NotFound`, propagate everything else. -/
def delete_wrapper (env : Env) (d : DeleteCall) : List Ev × Except Exc Unit :=
  match env.deleteCallExc d with
  | none => ([Ev.deleteCall d], Except.ok ())
  | some Exc.notFound => ([Ev.deleteCall d], Except.ok ())
  | some e => ([Ev.deleteCall d], Except.error e)

/-- Invoking one wait descriptor: `waiter_callable(**wait)`. -/
def waiterEv : WaitDescriptor → Ev
  | ⟨WaiterKind.serverTermination, _, id⟩ => Ev.waitServerTermination id
  | ⟨WaiterKind.abstractW k, _, id⟩ => Ev.abstractWait k id

def runWaiter (env : Env) (w : WaitDescriptor) : List Ev × Except Exc Unit :=
  match env.waiterExc w.waiter w.thing_id with
  | none => ([waiterEv w], Except.ok ())
  | some e => ([waiterEv w], Except.error e)

/-- `ScenarioTest._wait_for_cleanups`: iterate `cleanup_waits` in order,
calling each waiter; an exception aborts the loop and propagates. -/
def wait_for_cleanups (env : Env) : List WaitDescriptor → List Ev × Except Exc Unit
  | [] => ([], Except.ok ())
  | w :: rest =>
    match runWaiter env w with
    | (tr, Except.ok _) =>
      let (tr2, r) := wait_for_cleanups env rest
      (tr ++ tr2, r)
    | (tr, Except.error e) => (tr, Except.error e)

/-- Execute one registered cleanup. -/
def runCleanupItem (env : Env) (waits : List WaitDescriptor) :
    CleanupItem → List Ev × Except Exc Unit
  | CleanupItem.waitForCleanupsItem => wait_for_cleanups env waits
  | CleanupItem.generic l => ([Ev.cleanupRun l], Except.ok ())
  | CleanupItem.waitServerTerminationItem id =>
    match env.waiterExc WaiterKind.serverTermination id with
    | none => ([Ev.waitServerTermination id], Except.ok ())
    | some e => ([Ev.waitServerTermination id], Except.error e)
  | CleanupItem.deleteWrapperItem d => delete_wrapper env d

/-- Run a list of cleanups in the given order, collecting traces and
recording (not propagating) exceptions — testtools continues past a
failing cleanup. -/
def runItems (env : Env) (waits : List WaitDescriptor) :
    List CleanupItem → List Ev × List Exc
  | [] => ([], [])
  | c :: rest =>
    let (tr, r) := runCleanupItem env waits c
    let (tr2, errs) := runItems env waits rest
    (tr ++ tr2, match r with | Except.ok _ => errs | Except.error e => e :: errs)

/-- Teardown: testtools runs the cleanup stack in reverse registration
order; `_wait_for_cleanups` reads `cleanup_waits` at run time. -/
def runTeardown (env : Env) (s : TestState) : List Ev × List Exc :=
  runItems env s.cleanup_waits s.cleanups.reverse

/-- The event a non-drain cleanup item emits when executed (each such item
performs exactly one call). -/
def syncItemEv : CleanupItem → Ev
  | CleanupItem.waitForCleanupsItem => Ev.cleanupRun 0
  | CleanupItem.generic l => Ev.cleanupRun l
  | CleanupItem.waitServerTerminationItem id => Ev.waitServerTermination id
  | CleanupItem.deleteWrapperItem d => Ev.deleteCall d

/-- A registration made during the test body: plain `addCleanup`, or
`addCleanup_with_wait`. -/
inductive Reg where
  | sync (c : CleanupItem)
  | withWait (waiter : WaiterKind) (thing_id thing_id_param : String) (c : CleanupItem)
deriving DecidableEq, Repr

def applyReg (s : TestState) : Reg → TestState
  | Reg.sync c => addCleanup s c
  | Reg.withWait w tid p c => addCleanup_with_wait s w tid p c

def applyRegs (s : TestState) (regs : List Reg) : TestState :=
  regs.foldl applyReg s

def regItem : Reg → CleanupItem
  | Reg.sync c => c
  | Reg.withWait _ _ _ c => c

def regWaits : Reg → List WaitDescriptor
  | Reg.sync _ => []
  | Reg.withWait w tid p _ => [⟨w, p, tid⟩]

def regItems : List Reg → List CleanupItem
  | [] => []
  | r :: rs => regItem r :: regItems rs

def regWaitsAll : List Reg → List WaitDescriptor
  | [] => []
  | r :: rs => regWaits r ++ regWaitsAll rs

lemma applyRegs_cleanups (regs : List Reg) (s : TestState) :
    (applyRegs s regs).cleanups = s.cleanups ++ regItems regs := by
  induction regs generalizing s with
  | nil => simp [applyRegs, regItems]
  | cons r rs ih =>
    cases r with
    | sync c =>
      simp [applyRegs, regItems, List.foldl] at *
      rw [show applyReg s (Reg.sync c) = addCleanup s c from rfl]
      rw [ih]
      simp [addCleanup, regItem]
    | withWait w tid p c =>
      simp [applyRegs, regItems, List.foldl] at *
      rw [show applyReg s (Reg.withWait w tid p c) = addCleanup_with_wait s w tid p c from rfl]
      rw [ih]
      simp [addCleanup_with_wait, addCleanup, regItem]

lemma applyRegs_waits (regs : List Reg) (s : TestState) :
    (applyRegs s regs).cleanup_waits = s.cleanup_waits ++ regWaitsAll regs := by
  induction regs generalizing s with
  | nil => simp [applyRegs, regWaitsAll]
  | cons r rs ih =>
    cases r with
    | sync c =>
      simp [applyRegs, List.foldl] at *
      rw [show applyReg s (Reg.sync c) = addCleanup s c from rfl]
      rw [ih]
      simp [addCleanup, regWaitsAll, regWaits]
    | withWait w tid p c =>
      simp [applyRegs, List.foldl] at *
      rw [show applyReg s (Reg.withWait w tid p c) = addCleanup_with_wait s w tid p c from rfl]
      rw [ih]
      simp [addCleanup_with_wait, addCleanup, regWaitsAll, regWaits]

lemma runCleanupItem_fst (env : Env) (waits : List WaitDescriptor)
    (c : CleanupItem) (h : c ≠ CleanupItem.waitForCleanupsItem) :
    (runCleanupItem env waits c).1 = [syncItemEv c] := by
  cases c with
  | waitForCleanupsItem => exact absurd rfl h
  | generic l => rfl
  | waitServerTerminationItem id =>
    rcases henv : env.waiterExc WaiterKind.serverTermination id with _ | e <;>
      simp [runCleanupItem, henv, syncItemEv]
  | deleteWrapperItem d =>
    rcases henv : env.deleteCallExc d with _ | e
    · simp [runCleanupItem, delete_wrapper, henv, syncItemEv]
    · cases e <;> simp [runCleanupItem, delete_wrapper, henv, syncItemEv]

lemma wait_for_cleanups_ok (env : Env) (ws : List WaitDescriptor)
    (h : ∀ w ∈ ws, env.waiterExc w.waiter w.thing_id = none) :
    wait_for_cleanups env ws = (ws.map waiterEv, Except.ok ()) := by
  induction ws with
  | nil => rfl
  | cons w rest ih =>
    have hw : env.waiterExc w.waiter w.thing_id = none := h w (by simp)
    have hrest : ∀ x ∈ rest, env.waiterExc x.waiter x.thing_id = none := by
      intro x hx; exact h x (by simp [hx])
    simp only [wait_for_cleanups, runWaiter, hw, ih hrest, List.map,
      List.singleton_append]

lemma runItems_sync (env : Env) (waits : List WaitDescriptor)
    (cs : List CleanupItem) (h : ∀ c ∈ cs, c ≠ CleanupItem.waitForCleanupsItem) :
    (runItems env waits cs).1 = cs.map syncItemEv := by
  induction cs with
  | nil => rfl
  | cons c rest ih =>
    have hc := runCleanupItem_fst env waits c (h c (by simp))
    have hrest : ∀ x ∈ rest, x ≠ CleanupItem.waitForCleanupsItem := by
      intro x hx; exact h x (by simp [hx])
    unfold runItems
    rw [show (runCleanupItem env waits c) = ((runCleanupItem env waits c).1,
      (runCleanupItem env waits c).2) from rfl]
    simp only [hc, ih hrest, List.map]
    rfl

lemma runItems_append (env : Env) (waits : List WaitDescriptor)
    (xs ys : List CleanupItem) :
    (runItems env waits (xs ++ ys)).1
      = (runItems env waits xs).1 ++ (runItems env waits ys).1 := by
  induction xs with
  | nil => simp [runItems]
  | cons c rest ih =>
    simp only [List.cons_append, runItems, List.append_eq, ih, List.append_assoc]

/-- `ScenarioTest.create_server` (manager.py 176-216): create the server,
register the synchronous termination wait when `wait_on_delete`, register the
async wait-then-delete pair via `addCleanup_with_wait`, optionally wait for
ACTIVE, re-fetch the server and assert its name matches.  `name` stands for
the resolved name (caller-supplied or `rand_name`). -/
def create_server (env : Env) (s : TestState) (name : String)
    (wait_on_boot wait_on_delete : Bool) :
    List Ev × TestState × Except Exc Server :=
  let server := env.createServer name
  let s1 := if wait_on_delete
    then addCleanup s (CleanupItem.waitServerTerminationItem server.id) else s
  let s2 := addCleanup_with_wait s1 WaiterKind.serverTermination server.id "server_id"
    (CleanupItem.deleteWrapperItem (DeleteCall.server server.id))
  match (if wait_on_boot then env.waitServerStatusExc server.id "ACTIVE" else none) with
  | some e =>
    ([Ev.createServer name, Ev.waitServerStatus server.id "ACTIVE"], s2, Except.error e)
  | none =>
    let tr := [Ev.createServer name]
      ++ (if wait_on_boot then [Ev.waitServerStatus server.id "ACTIVE"] else [])
      ++ [Ev.getServer server.id]
    let server2 := env.getServer server.id
    if server2.name = name then (tr, s2, Except.ok server2)
    else (tr, s2, Except.error (Exc.assertionError "server name mismatch"))

/-- `NetworkScenarioTest._create_network` (manager.py 544-556): create the
network, assert the returned name matches the request, and only then
register the deletion cleanup. -/
def _create_network (env : Env) (s : TestState) (tenant_id name : String) :
    List Ev × TestState × Except Exc Network :=
  let network := env.createNetwork name tenant_id
  if network.name = name then
    ([Ev.createNetwork name],
      addCleanup s (CleanupItem.deleteWrapperItem (DeleteCall.network network.id)),
      Except.ok network)
  else
    ([Ev.createNetwork name], s, Except.error (Exc.assertionError "network name mismatch"))

/-- The marker substring in the Conflict message that `_create_subnet`
treats as "retry with the next cidr block". -/
def overlapPat : String := "overlaps with another subnet"

/-- The retry loop of `NetworkScenarioTest._create_subnet` (manager.py
599-623): iterate candidate cidr blocks; skip blocks whose
`list_subnets(tenant_id=..., cidr=...)` is non-empty; try creating; break on
success; continue on a Conflict mentioning an overlapping subnet; re-raise
any other exception.  Returns the created body together with the candidate
it was created under (`str_cidr`), or `none` when the space is exhausted. -/
def createSubnetLoop (env : Env) (tenant_id : String) :
    List Nat → List Ev × Except Exc (Option (Subnet × Nat))
  | [] => ([], Except.ok none)
  | c :: rest =>
    if (env.list_subnets tenant_id c).length ≠ 0 then
      (Ev.listSubnets c :: (createSubnetLoop env tenant_id rest).1,
        (createSubnetLoop env tenant_id rest).2)
    else
      match env.create_subnet c with
      | Except.ok body => ([Ev.listSubnets c, Ev.createSubnet c], Except.ok (some (body, c)))
      | Except.error (Exc.conflict msg) =>
        if containsSubstr msg overlapPat then
          (Ev.listSubnets c :: Ev.createSubnet c :: (createSubnetLoop env tenant_id rest).1,
            (createSubnetLoop env tenant_id rest).2)
        else
          ([Ev.listSubnets c, Ev.createSubnet c], Except.error (Exc.conflict msg))
      | Except.error e => ([Ev.listSubnets c, Ev.createSubnet c], Except.error e)

/-- `NetworkScenarioTest._create_subnet` (manager.py 582-629): run the cidr
retry loop over the configured candidate blocks, assert a result was
allocated, assert its cidr matches the requested block, then register the
deletion cleanup. -/
def _create_subnet (env : Env) (s : TestState) (tenant_id : String)
    (cands : List Nat) : List Ev × TestState × Except Exc Subnet :=
  match (createSubnetLoop env tenant_id cands).2 with
  | Except.error e => ((createSubnetLoop env tenant_id cands).1, s, Except.error e)
  | Except.ok none =>
    ((createSubnetLoop env tenant_id cands).1, s,
      Except.error (Exc.assertionError "Unable to allocate tenant network"))
  | Except.ok (some (body, str_cidr)) =>
    if body.cidr = str_cidr then
      ((createSubnetLoop env tenant_id cands).1,
        addCleanup s (CleanupItem.deleteWrapperItem (DeleteCall.subnet body.id)),
        Except.ok body)
    else ((createSubnetLoop env tenant_id cands).1, s,
      Except.error (Exc.assertionError "subnet cidr mismatch"))

/-- The marker substring the neutron loginable-rule loop looks for inside a
Conflict's `_error_string`. -/
def alreadyExistsPat : String := "Security group rule already exists"

/-- `NetworkScenarioTest._create_security_group_rule` (manager.py 828-868):
issue the create call, wrap the result, register the deletion cleanup, then
assert the rule's tenant and security-group ids match the secgroup. -/
def _create_security_group_rule (env : Env) (s : TestState) (secgroup : Secgroup)
    (protocol direction : String) :
    List Ev × TestState × Except Exc SecgroupRule :=
  match env.createSecgroupRule protocol direction with
  | Except.error e => ([Ev.createSecgroupRule direction protocol], s, Except.error e)
  | Except.ok rule =>
    let s1 := addCleanup s (CleanupItem.deleteWrapperItem (DeleteCall.secgroupRule rule.id))
    if rule.tenant_id = secgroup.tenant_id then
      if rule.security_group_id = secgroup.id then
        ([Ev.createSecgroupRule direction protocol], s1, Except.ok rule)
      else
        ([Ev.createSecgroupRule direction protocol], s1,
          Except.error (Exc.assertionError "rule security_group_id mismatch"))
    else
      ([Ev.createSecgroupRule direction protocol], s1,
        Except.error (Exc.assertionError "rule tenant_id mismatch"))

/-- The (protocol, direction) pairs attempted by the neutron
`_create_loginable_secgroup_rule`: the tcp/22 and icmp rulesets, each for
ingress then egress. -/
def loginableCombos : List (String × String) :=
  [("tcp", "ingress"), ("tcp", "egress"), ("icmp", "ingress"), ("icmp", "egress")]

/-- The loop body of `NetworkScenarioTest._create_loginable_secgroup_rule`
(manager.py 892-907): try each combo; a Conflict whose `_error_string`
mentions an already-existing rule is skipped, any other Conflict (or other
exception) is re-raised; on success the direction is asserted and the rule
collected. -/
def loginableLoop (env : Env) (s : TestState) (secgroup : Secgroup) :
    List (String × String) → List Ev × TestState × Except Exc (List SecgroupRule)
  | [] => ([], s, Except.ok [])
  | (p, d) :: rest =>
    match _create_security_group_rule env s secgroup p d with
    | (tr, s1, Except.ok rule) =>
      if rule.direction = d then
        match loginableLoop env s1 secgroup rest with
        | (tr2, s2, Except.ok rules) => (tr ++ tr2, s2, Except.ok (rule :: rules))
        | (tr2, s2, Except.error e) => (tr ++ tr2, s2, Except.error e)
      else (tr, s1, Except.error (Exc.assertionError "direction mismatch"))
    | (tr, s1, Except.error (Exc.conflict msg)) =>
      if containsSubstr msg alreadyExistsPat then
        match loginableLoop env s1 secgroup rest with
        | (tr2, s2, r) => (tr ++ tr2, s2, r)
      else (tr, s1, Except.error (Exc.conflict msg))
    | (tr, s1, Except.error e) => (tr, s1, Except.error e)

/-- `NetworkScenarioTest._create_loginable_secgroup_rule` (manager.py
870-907). -/
def _create_loginable_secgroup_rule (env : Env) (s : TestState) (secgroup : Secgroup) :
    List Ev × TestState × Except Exc (List SecgroupRule) :=
  loginableLoop env s secgroup loginableCombos

/-- The loop of the nova-network `ScenarioTest._create_loginable_secgroup_rule`
(manager.py 245-281): create each ruleset's rule, register its deletion
cleanup, collect it; there is no exception handling, so any failure
(including a duplicate-rule Conflict) propagates. -/
def novaLoginableLoop (env : Env) (s : TestState) :
    List String → List Ev × TestState × Except Exc (List String)
  | [] => ([], s, Except.ok [])
  | p :: rest =>
    match env.novaCreateRule p with
    | Except.ok rid =>
      let s1 := addCleanup s (CleanupItem.deleteWrapperItem (DeleteCall.secgroupRule rid))
      match novaLoginableLoop env s1 rest with
      | (tr, s2, Except.ok rs) =>
        (Ev.novaCreateSecgroupRule p :: tr, s2, Except.ok (rid :: rs))
      | (tr, s2, Except.error e) =>
        (Ev.novaCreateSecgroupRule p :: tr, s2, Except.error e)
    | Except.error e => ([Ev.novaCreateSecgroupRule p], s, Except.error e)

/-- The nova-network `ScenarioTest._create_loginable_secgroup_rule`:
rulesets are tcp/22 then icmp. -/
def nova_create_loginable_secgroup_rule (env : Env) (s : TestState) :
    List Ev × TestState × Except Exc (List String) :=
  novaLoginableLoop env s ["tcp", "icmp"]

/-- `ScenarioTest.ping_ip_address` (manager.py 445-457):
`call_until_true(ping, timeout, 1)` where ping compares the process exit
status against `should_succeed`; returns a boolean, never raises. -/
def ping_ip_address (env : Env) (ip : String) (should_succeed : Bool) :
    List Ev × Bool :=
  ([Ev.ping ip should_succeed], env.pingOk ip should_succeed)

/-- `ScenarioTest.get_remote_client` (manager.py 300-320): open the ssh
session and validate authentication; on `SSHTimeout` log net debug and
re-raise; other exceptions propagate directly. -/
def get_remote_client (env : Env) (ip : String) : List Ev × Except Exc Unit :=
  match env.sshAuthExc ip with
  | none => ([Ev.sshConnect ip], Except.ok ())
  | some Exc.sshTimeout => ([Ev.sshConnect ip, Ev.logNetDebug], Except.error Exc.sshTimeout)
  | some e => ([Ev.sshConnect ip], Except.error e)

/-- `ScenarioTest.check_vm_connectivity` (manager.py 459-483): assert the
ping result matches `should_connect`; only for a positive expectation, and
only after the assert passed, attempt the ssh session. -/
def check_vm_connectivity (env : Env) (ip : String) (should_connect : Bool) :
    List Ev × Except Exc Unit :=
  let (ptr, pok) := ping_ip_address env ip should_connect
  if pok = false then
    (ptr, Except.error (Exc.assertionError
      (if should_connect then "Timed out waiting for " ++ ip ++ " to become reachable"
       else "ip address " ++ ip ++ " is reachable")))
  else if should_connect then
    let (str, r) := get_remote_client env ip
    (ptr ++ str, r)
  else (ptr, Except.ok ())

/-- The per-server console loop inside `_log_console_output`
(manager.py 377-381); a failing `get_console_output` call propagates. -/
def logConsoleLoop (env : Env) : List Server → List Ev × Except Exc Unit
  | [] => ([], Except.ok ())
  | sv :: rest =>
    match env.get_console_output sv.id with
    | Except.ok _ =>
      let (tr, r) := logConsoleLoop env rest
      (Ev.getConsoleOutput sv.id :: tr, r)
    | Except.error e => ([Ev.getConsoleOutput sv.id], Except.error e)

/-- `ScenarioTest._log_console_output` (manager.py 370-381): no-op when the
console-output feature is disabled; list servers when none were passed
(Python `if not servers:` treats an empty list like `None`); fetch each
server's console output. -/
def _log_console_output (env : Env) (servers : List Server) :
    List Ev × Except Exc Unit :=
  if env.console_output_enabled = false then ([], Except.ok ())
  else
    match (if servers.isEmpty then
            (match env.list_servers with
             | Except.ok svs => ([Ev.listServers], Except.ok svs)
             | Except.error e => ([Ev.listServers], Except.error e))
           else ([], Except.ok servers) : List Ev × Except Exc (List Server)) with
    | (tr, Except.error e) => (tr, Except.error e)
    | (tr, Except.ok svs) =>
      let (tr2, r) := logConsoleLoop env svs
      (tr ++ tr2, r)

/-- `ScenarioTest.check_public_network_connectivity` (manager.py 485-506):
on any failure of the connectivity check, log console output, then (unless
the failure is an `SSHTimeout`, for which net debug already ran during ssh
init) log the network debug snapshot, and re-raise; an exception raised by
the diagnostic capture itself propagates instead of the original. -/
def check_public_network_connectivity (env : Env) (ip : String)
    (should_connect : Bool) (servers : List Server) :
    List Ev × Except Exc Unit :=
  match check_vm_connectivity env ip should_connect with
  | (tr, Except.ok _) => (tr, Except.ok ())
  | (tr, Except.error e) =>
    match _log_console_output env servers with
    | (ctr, Except.error e2) => (tr ++ ctr, Except.error e2)
    | (ctr, Except.ok _) =>
      if e = Exc.sshTimeout then (tr ++ ctr, Except.error e)
      else (tr ++ ctr ++ [Ev.logNetDebug], Except.error e)

/-- `BaremetalPowerStates` / `BaremetalProvisionStates` constants used by
the boot sequence. -/
def POWER_ON : String := "power on"

def PROV_ACTIVE : String := "active"

def PROV_DEPLOYWAIT : String := "wait call-back"

/-- The timeout message of `BaremetalScenarioTest._node_state_timeout`
(manager.py 1073-1074). -/
def nodeStateMsg (node_id state_attr : String) (targets : List String) : String :=
  "Timed out waiting for node " ++ node_id ++ " to reach " ++ state_attr
    ++ " state(s) " ++ String.intercalate ", " targets

/-- `BaremetalScenarioTest._node_state_timeout` (manager.py 1060-1075):
poll the node's `state_attr` against `target_states` with the given
timeout; raise `TimeoutException` naming the node, attribute and targets
when the deadline passes. -/
def _node_state_timeout (env : Env) (node_id state_attr : String)
    (target_states : List String) (timeout : Nat) : List Ev × Except Exc Unit :=
  if env.nodeStateOk node_id state_attr target_states timeout then
    ([Ev.checkNodeState node_id state_attr target_states timeout], Except.ok ())
  else
    ([Ev.checkNodeState node_id state_attr target_states timeout],
      Except.error (Exc.timeoutException (nodeStateMsg node_id state_attr target_states)))

/-- `BaremetalScenarioTest.wait_provisioning_state` (manager.py 1077-1080). -/
def wait_provisioning_state (env : Env) (node_id : String)
    (states : List String) (timeout : Nat) : List Ev × Except Exc Unit :=
  _node_state_timeout env node_id "provision_state" states timeout

/-- `BaremetalScenarioTest.wait_power_state` (manager.py 1082-1085); the
timeout is `CONF.baremetal.power_timeout`. -/
def wait_power_state (env : Env) (node_id state : String) :
    List Ev × Except Exc Unit :=
  _node_state_timeout env node_id "power_state" [state] env.power_timeout

/-- The timeout message of `BaremetalScenarioTest.wait_node`
(manager.py 1100-1101). -/
def waitNodeMsg (instance_id : String) : String :=
  "Timed out waiting to get Ironic node by instance id " ++ instance_id

/-- `BaremetalScenarioTest.wait_node` (manager.py 1087-1102): poll for a
node associated with the instance id within
`CONF.baremetal.association_timeout`. -/
def wait_node (env : Env) (instance_id : String) : List Ev × Except Exc Unit :=
  if env.waitNodeOk instance_id then
    ([Ev.waitNodeAssoc instance_id env.association_timeout], Except.ok ())
  else
    ([Ev.waitNodeAssoc instance_id env.association_timeout],
      Except.error (Exc.timeoutException (waitNodeMsg instance_id)))

/-- `BaremetalScenarioTest.boot_instance` (manager.py 1132-1157): create the
server without waiting for boot, wait for node association, fetch the node,
wait for power on, wait for provisioning in {wait call-back, active} with a
15s timeout, wait for provisioning active with the configured long timeout,
wait for server status ACTIVE, then re-fetch node and server. -/
def boot_instance (env : Env) (s : TestState) (name : String) :
    List Ev × TestState × Except Exc (Server × Node) :=
  match create_server env s name false true with
  | (tr, s1, Except.error e) => (tr, s1, Except.error e)
  | (tr, s1, Except.ok inst) =>
    match wait_node env inst.id with
    | (tr2, Except.error e) => (tr ++ tr2, s1, Except.error e)
    | (tr2, Except.ok _) =>
      let node := env.nodeOf inst.id
      let tr3 := tr ++ tr2 ++ [Ev.getNodeByInstance inst.id]
      match wait_power_state env node.uuid POWER_ON with
      | (tp, Except.error e) => (tr3 ++ tp, s1, Except.error e)
      | (tp, Except.ok _) =>
        match wait_provisioning_state env node.uuid [PROV_DEPLOYWAIT, PROV_ACTIVE] 15 with
        | (tq, Except.error e) => (tr3 ++ tp ++ tq, s1, Except.error e)
        | (tq, Except.ok _) =>
          match wait_provisioning_state env node.uuid [PROV_ACTIVE] env.active_timeout with
          | (tu, Except.error e) => (tr3 ++ tp ++ tq ++ tu, s1, Except.error e)
          | (tu, Except.ok _) =>
            match env.waitServerStatusExc inst.id "ACTIVE" with
            | some e =>
              (tr3 ++ tp ++ tq ++ tu ++ [Ev.waitServerStatus inst.id "ACTIVE"],
                s1, Except.error e)
            | none =>
              (tr3 ++ tp ++ tq ++ tu ++ [Ev.waitServerStatus inst.id "ACTIVE",
                  Ev.getNodeByInstance inst.id, Ev.getServer inst.id],
                s1, Except.ok (env.getServer inst.id, env.nodeOf inst.id))

/-- A benign environment: every remote call succeeds with simple bodies. -/
def baseEnv : Env where
  createServer := fun _ => ⟨"srv-1", "T"⟩
  getServer := fun i => ⟨i, "T"⟩
  waitServerStatusExc := fun _ _ => none
  deleteCallExc := fun _ => none
  waiterExc := fun _ _ => none
  createNetwork := fun n t => ⟨"net-1", n, t⟩
  list_subnets := fun _ _ => []
  create_subnet := fun c => Except.ok ⟨"sub-1", c⟩
  createSecgroupRule := fun p d => Except.ok ⟨"rule-1", d, p, "tenant-1", "sg-1"⟩
  novaCreateRule := fun p => Except.ok ("nr-" ++ p)
  pingOk := fun _ _ => true
  sshAuthExc := fun _ => none
  console_output_enabled := true
  list_servers := Except.ok []
  get_console_output := fun _ => Except.ok ()
  waitNodeOk := fun _ => true
  nodeOf := fun _ => ⟨"node-1"⟩
  nodeStateOk := fun _ _ _ _ => true
  association_timeout := 10
  power_timeout := 20
  active_timeout := 30

lemma delete_wrapper_fst (env : Env) (d : DeleteCall) :
    (delete_wrapper env d).1 = [Ev.deleteCall d] := by
  rcases henv : env.deleteCallExc d with _ | e
  · simp [delete_wrapper, henv]
  · cases e <;> simp [delete_wrapper, henv]

lemma wait_for_cleanups_single_fst (env : Env) (w : WaitDescriptor) :
    (wait_for_cleanups env [w]).1 = [waiterEv w] := by
  rcases henv : env.waiterExc w.waiter w.thing_id with _ | e <;>
    simp [wait_for_cleanups, runWaiter, henv]

lemma regItems_eq_map (regs : List Reg) : regItems regs = regs.map regItem := by
  induction regs with
  | nil => rfl
  | cons r rs ih => simp [regItems, ih]

/-- C3: the cleanup-path delete wrapper is idempotent from the caller's
perspective: a NotFound raised by the wrapped delete call is swallowed as
success (and a successful delete returns normally), while any other
exception from the delete call propagates unchanged. -/
theorem C3_delete_wrapper_idempotent (env : Env) (d : DeleteCall) :
    ((env.deleteCallExc d = none ∨ env.deleteCallExc d = some Exc.notFound) →
      (delete_wrapper env d).2 = Except.ok ())
    ∧ (∀ e : Exc, e ≠ Exc.notFound → env.deleteCallExc d = some e →
      (delete_wrapper env d).2 = Except.error e) := by
  constructor
  · rintro (h | h) <;> simp [delete_wrapper, h]
  · intro e he h
    cases e with
    | notFound => exact absurd rfl he
    | conflict m => simp [delete_wrapper, h]
    | sshTimeout => simp [delete_wrapper, h]
    | timeoutException m => simp [delete_wrapper, h]
    | assertionError m => simp [delete_wrapper, h]
    | other m => simp [delete_wrapper, h]

def envDelNF : Env := { baseEnv with deleteCallExc := fun _ => some Exc.notFound }

def envDelCF : Env := { baseEnv with deleteCallExc := fun _ => some (Exc.conflict "in use") }

/-- Witness for C3: a NotFound delete is swallowed, a Conflict propagates. -/
theorem C3_witness :
    (delete_wrapper envDelNF (DeleteCall.server "s1")).2 = Except.ok ()
    ∧ (delete_wrapper envDelCF (DeleteCall.server "s1")).2
        = Except.error (Exc.conflict "in use") :=
  ⟨(C3_delete_wrapper_idempotent envDelNF (DeleteCall.server "s1")).1 (Or.inr rfl),
   (C3_delete_wrapper_idempotent envDelCF (DeleteCall.server "s1")).2
     (Exc.conflict "in use") (by decide) rfl⟩

/-- C10: when a waiter raises during the async drain phase,
`_wait_for_cleanups` stops at that descriptor: every earlier descriptor is
waited in order, the exception propagates, and no descriptor registered
after the failing one is ever waited on. -/
theorem C10_drain_aborts_on_failure (env : Env) (xs ys : List WaitDescriptor)
    (w : WaitDescriptor) (e : Exc)
    (hxs : ∀ x ∈ xs, env.waiterExc x.waiter x.thing_id = none)
    (hw : env.waiterExc w.waiter w.thing_id = some e) :
    wait_for_cleanups env (xs ++ w :: ys)
      = (xs.map waiterEv ++ [waiterEv w], Except.error e) := by
  induction xs with
  | nil => simp [wait_for_cleanups, runWaiter, hw]
  | cons x rest ih =>
    have hx := hxs x (by simp)
    have hrest : ∀ y ∈ rest, env.waiterExc y.waiter y.thing_id = none :=
      fun y hy => hxs y (by simp [hy])
    simp only [List.cons_append, wait_for_cleanups, runWaiter, hx, List.append_eq,
      ih hrest, List.map, List.singleton_append, List.nil_append]

def envDrain : Env :=
  { baseEnv with waiterExc := fun k _ =>
      match k with
      | WaiterKind.abstractW 1 => some (Exc.timeoutException "slow delete")
      | _ => none }

/-- Witness for C10: with three registered descriptors whose middle waiter
times out, only the first two are waited and the third is skipped. -/
theorem C10_witness :
    wait_for_cleanups envDrain
        [⟨WaiterKind.abstractW 0, "id", "a"⟩, ⟨WaiterKind.abstractW 1, "id", "b"⟩,
         ⟨WaiterKind.abstractW 2, "id", "c"⟩]
      = ([Ev.abstractWait 0 "a", Ev.abstractWait 1 "b"],
          Except.error (Exc.timeoutException "slow delete")) :=
  C10_drain_aborts_on_failure envDrain
    [⟨WaiterKind.abstractW 0, "id", "a"⟩] [⟨WaiterKind.abstractW 2, "id", "c"⟩]
    ⟨WaiterKind.abstractW 1, "id", "b"⟩ (Exc.timeoutException "slow delete")
    (by decide) rfl

/-- C8: `check_vm_connectivity` with `should_connect=False` never attempts
an ssh session; the ssh step occurs only when `should_connect` is true, and
then only after a positive ping result, with the ping event first. -/
theorem C8_negative_check_never_ssh (env : Env) (ip : String) :
    (∀ j, Ev.sshConnect j ∉ (check_vm_connectivity env ip false).1)
    ∧ ((∃ j, Ev.sshConnect j ∈ (check_vm_connectivity env ip true).1) →
        env.pingOk ip true = true
        ∧ (check_vm_connectivity env ip true).1.head? = some (Ev.ping ip true)) := by
  constructor
  · intro j
    rcases hp : env.pingOk ip false with _ | _ <;>
      simp [check_vm_connectivity, ping_ip_address, hp]
  · rintro ⟨j, hj⟩
    rcases hp : env.pingOk ip true with _ | _
    · simp [check_vm_connectivity, ping_ip_address, hp] at hj
    · refine ⟨rfl, ?_⟩
      simp [check_vm_connectivity, ping_ip_address, hp]

def envSsh : Env := baseEnv

/-- Witness for C8: in an environment where ping and ssh succeed, the
positive check leads with the ping event, and the witness env pings. -/
theorem C8_witness :
    envSsh.pingOk "10.0.0.1" true = true
    ∧ (check_vm_connectivity envSsh "10.0.0.1" true).1.head?
        = some (Ev.ping "10.0.0.1" true) :=
  (C8_negative_check_never_ssh envSsh "10.0.0.1").2
    ⟨"10.0.0.1", by simp [check_vm_connectivity, ping_ip_address, envSsh, baseEnv,
      get_remote_client]⟩

/-- C1: for registrations A1..An made during the test, teardown executes the
synchronous cleanup actions in exact reverse registration order (An..A1);
every cleanup callable registered via `addCleanup_with_wait` (the delete
calls) runs in that synchronous phase, which completes before any wait
descriptor is waited on; `cleanup_waits` holds exactly the
`addCleanup_with_wait` descriptors in registration order and
`_wait_for_cleanups` then drains them in that order. -/
theorem C1_lifo_then_drain_in_order (env : Env) (regs : List Reg)
    (hno : ∀ r ∈ regs, regItem r ≠ CleanupItem.waitForCleanupsItem)
    (hok : ∀ w ∈ regWaitsAll regs, env.waiterExc w.waiter w.thing_id = none) :
    (applyRegs setUpState regs).cleanup_waits = regWaitsAll regs
    ∧ (runTeardown env (applyRegs setUpState regs)).1
      = (regItems regs).reverse.map syncItemEv
        ++ (regWaitsAll regs).map waiterEv := by
  have hwaits : (applyRegs setUpState regs).cleanup_waits = regWaitsAll regs := by
    rw [applyRegs_waits]; rfl
  refine ⟨hwaits, ?_⟩
  have hcl : (applyRegs setUpState regs).cleanups
      = CleanupItem.waitForCleanupsItem :: regItems regs := by
    rw [applyRegs_cleanups]; rfl
  unfold runTeardown
  rw [hcl, hwaits, List.reverse_cons, runItems_append]
  have hsync : (runItems env (regWaitsAll regs) (regItems regs).reverse).1
      = (regItems regs).reverse.map syncItemEv := by
    apply runItems_sync
    intro c hc
    rw [List.mem_reverse, regItems_eq_map] at hc
    rcases List.mem_map.mp hc with ⟨r, hr, hrc⟩
    rw [← hrc]
    exact hno r hr
  have hdrain : (runItems env (regWaitsAll regs) [CleanupItem.waitForCleanupsItem]).1
      = (regWaitsAll regs).map waiterEv := by
    show ((wait_for_cleanups env (regWaitsAll regs)).1 ++ [].append [] : List Ev)
        = (regWaitsAll regs).map waiterEv
    rw [wait_for_cleanups_ok env (regWaitsAll regs) hok]
    simp
  rw [hsync, hdrain]

def regsW : List Reg :=
  [Reg.sync (CleanupItem.generic 1),
   Reg.withWait (WaiterKind.abstractW 7) "vol-1" "id"
     (CleanupItem.deleteWrapperItem (DeleteCall.floatingIp "vol-1")),
   Reg.sync (CleanupItem.generic 2),
   Reg.withWait WaiterKind.serverTermination "srv-9" "server_id"
     (CleanupItem.deleteWrapperItem (DeleteCall.server "srv-9"))]

/-- Witness for C1 at a concrete registration sequence: the two delete
calls and the two generic actions run LIFO, then the two waits drain in
registration order. -/
theorem C1_witness :
    (applyRegs setUpState regsW).cleanup_waits
      = [⟨WaiterKind.abstractW 7, "id", "vol-1"⟩,
         ⟨WaiterKind.serverTermination, "server_id", "srv-9"⟩]
    ∧ (runTeardown baseEnv (applyRegs setUpState regsW)).1
      = [Ev.deleteCall (DeleteCall.server "srv-9"), Ev.cleanupRun 2,
         Ev.deleteCall (DeleteCall.floatingIp "vol-1"), Ev.cleanupRun 1,
         Ev.abstractWait 7 "vol-1", Ev.waitServerTermination "srv-9"] :=
  C1_lifo_then_drain_in_order baseEnv regsW (by decide) (by decide)

lemma create_server_state (env : Env) (s : TestState) (name : String) (wb wd : Bool) :
    (create_server env s name wb wd).2.1
      = addCleanup_with_wait
          (if wd then
            addCleanup s (CleanupItem.waitServerTerminationItem (env.createServer name).id)
           else s)
          WaiterKind.serverTermination (env.createServer name).id "server_id"
          (CleanupItem.deleteWrapperItem (DeleteCall.server (env.createServer name).id)) := by
  unfold create_server
  dsimp only
  split
  · rfl
  · split <;> rfl

/-- C9: every `create_server` call appends the termination wait descriptor
to `cleanup_waits` regardless of `wait_on_delete`; with `wait_on_delete=True`
the termination waiter is also registered as a synchronous cleanup, so at
teardown `wait_for_server_termination` is invoked twice for the server —
once in the synchronous LIFO phase, once in the async drain. -/
theorem C9_termination_waited_twice (env : Env) (name : String) (wb wd : Bool) :
    ((create_server env setUpState name wb wd).2.1).cleanup_waits
      = [⟨WaiterKind.serverTermination, "server_id", (env.createServer name).id⟩]
    ∧ ((runTeardown env ((create_server env setUpState name wb true).2.1)).1.count
        (Ev.waitServerTermination (env.createServer name).id)) = 2 := by
  constructor
  · rw [create_server_state]
    cases wd <;> rfl
  · rw [create_server_state]
    show ((runItems env _ _).1.count _) = 2
    have h1 := delete_wrapper_fst env (DeleteCall.server (env.createServer name).id)
    have h3 := wait_for_cleanups_single_fst env
      ⟨WaiterKind.serverTermination, "server_id", (env.createServer name).id⟩
    rcases h2 : env.waiterExc WaiterKind.serverTermination (env.createServer name).id
      with _ | e <;>
      simp [addCleanup_with_wait, addCleanup, setUpState, runItems, runCleanupItem,
        delete_wrapper, h2, wait_for_cleanups, runWaiter, waiterEv, List.count_cons] <;>
      rcases hd : env.deleteCallExc (DeleteCall.server (env.createServer name).id)
        with _ | e2 <;>
      first
      | simp [hd, List.count_cons]
      | (cases e2 <;> simp [hd, List.count_cons])

def envNetBad : Env :=
  { baseEnv with createNetwork := fun _ t => ⟨"net-9", "unexpected-name", t⟩ }

/-- C2 counterexample: in `_create_network` the creation-time name assertion
precedes the cleanup registration (manager.py 554 before 555), so when the
response name mismatches the request the call raises the assertion error
with NO deletion cleanup registered for the created network — refuting "a
failure in the assertion still triggers cleanup of that resource" for this
factory. -/
theorem C2_counterexample :
    (_create_network envNetBad setUpState "tenant-1" "net-req").2.2
      = Except.error (Exc.assertionError "network name mismatch")
    ∧ ((_create_network envNetBad setUpState "tenant-1" "net-req").2.1).cleanups
      = [CleanupItem.waitForCleanupsItem] := by
  exact ⟨rfl, rfl⟩

/-- C2 amended: in `create_server` the deletion cleanup and the async wait
descriptor are registered before the readiness wait and before the
creation-time assertion, so they are present in the final ledger whatever
the outcome; in `_create_network` the deletion cleanup is registered before
any readiness wait (there is none) but only after the name assertion
succeeds: on success it is registered, on an assertion failure the ledger
is left unchanged. -/
theorem C2_cleanup_registration_order (env : Env) (s : TestState)
    (name tid nname : String) (wb wd : Bool) :
    (CleanupItem.deleteWrapperItem (DeleteCall.server (env.createServer name).id)
        ∈ ((create_server env s name wb wd).2.1).cleanups
      ∧ (⟨WaiterKind.serverTermination, "server_id",
            (env.createServer name).id⟩ : WaitDescriptor)
        ∈ ((create_server env s name wb wd).2.1).cleanup_waits)
    ∧ ((env.createNetwork nname tid).name = nname →
        (_create_network env s tid nname).2.1
          = addCleanup s (CleanupItem.deleteWrapperItem
              (DeleteCall.network (env.createNetwork nname tid).id)))
    ∧ ((env.createNetwork nname tid).name ≠ nname →
        (_create_network env s tid nname).2.1 = s) := by
  refine ⟨⟨?_, ?_⟩, ?_, ?_⟩
  · rw [create_server_state]
    cases wd <;> simp [addCleanup_with_wait, addCleanup]
  · rw [create_server_state]
    cases wd <;> simp [addCleanup_with_wait, addCleanup]
  · intro h; simp [_create_network, h]
  · intro h; simp [_create_network, h]

/-- Witness for C2's amended claim at concrete environments. -/
theorem C2_witness :
    (CleanupItem.deleteWrapperItem (DeleteCall.server "srv-1")
        ∈ ((create_server baseEnv setUpState "T" true true).2.1).cleanups)
    ∧ (_create_network baseEnv setUpState "t1" "net-a").2.1
        = addCleanup setUpState
            (CleanupItem.deleteWrapperItem (DeleteCall.network "net-1"))
    ∧ (_create_network envNetBad setUpState "t1" "net-a").2.1 = setUpState :=
  ⟨((C2_cleanup_registration_order baseEnv setUpState "T" "t1" "net-a" true true).1).1,
   (C2_cleanup_registration_order baseEnv setUpState "T" "t1" "net-a" true true).2.1 rfl,
   (C2_cleanup_registration_order envNetBad setUpState "T" "t1" "net-a" true true).2.2
     (by decide)⟩

/-- A candidate cidr block the retry loop passes over: already in use by
the tenant, or creation fails with an overlapping-subnet Conflict. -/
def skipOrOverlap (env : Env) (tid : String) (c : Nat) : Prop :=
  env.list_subnets tid c ≠ []
  ∨ ∃ msg, env.create_subnet c = Except.error (Exc.conflict msg)
      ∧ containsSubstr msg overlapPat = true

lemma createSubnetLoop_exhausted (env : Env) (tid : String) (l : List Nat)
    (h : ∀ c ∈ l, skipOrOverlap env tid c) :
    (createSubnetLoop env tid l).2 = Except.ok none := by
  induction l with
  | nil => rfl
  | cons c rest ih =>
    have hrest : ∀ x ∈ rest, skipOrOverlap env tid x := fun x hx => h x (by simp [hx])
    rcases h c (by simp) with hne | ⟨msg, hmsg, hsub⟩
    · have hlen : (env.list_subnets tid c).length ≠ 0 := by
        simpa [List.length_eq_zero] using hne
      simp [createSubnetLoop, hlen, ih hrest]
    · by_cases hin : (env.list_subnets tid c).length ≠ 0
      · simp [createSubnetLoop, hin, ih hrest]
      · simp [createSubnetLoop, hin, hmsg, hsub, ih hrest]

lemma createSubnetLoop_ok_some (env : Env) (tid : String) (l : List Nat)
    (body : Subnet) (c0 : Nat)
    (h : (createSubnetLoop env tid l).2 = Except.ok (some (body, c0))) :
    c0 ∈ l ∧ env.list_subnets tid c0 = [] ∧ env.create_subnet c0 = Except.ok body := by
  induction l with
  | nil => simp [createSubnetLoop] at h
  | cons c rest ih =>
    by_cases hin : (env.list_subnets tid c).length ≠ 0
    · rw [createSubnetLoop, if_pos hin] at h
      rcases ih h with ⟨hm, h1, h2⟩
      exact ⟨by simp [hm], h1, h2⟩
    · rw [createSubnetLoop, if_neg hin] at h
      have hempty : env.list_subnets tid c = [] := by
        rcases Nat.eq_zero_or_pos (env.list_subnets tid c).length with h0 | h0
        · exact List.length_eq_zero.mp h0
        · exact absurd (Nat.pos_iff_ne_zero.mp h0) hin
      rcases hcr : env.create_subnet c with e | b
      · rw [hcr] at h
        cases e with
        | conflict msg =>
          by_cases hov : containsSubstr msg overlapPat = true
          · simp only [hov, if_true] at h
            rcases ih h with ⟨hm, h1, h2⟩
            exact ⟨by simp [hm], h1, h2⟩
          · simp [hov] at h
        | notFound => simp at h
        | sshTimeout => simp at h
        | timeoutException m => simp at h
        | assertionError m => simp at h
        | other m => simp at h
      · rw [hcr] at h
        simp at h
        obtain ⟨hb, hc⟩ := h
        subst hb
        subst hc
        exact ⟨List.mem_cons_self _ _, hempty, hcr⟩

lemma createSubnetLoop_hard_error (env : Env) (tid : String) (xs : List Nat)
    (c : Nat) (ys : List Nat) (e : Exc)
    (hxs : ∀ x ∈ xs, skipOrOverlap env tid x)
    (hc1 : env.list_subnets tid c = [])
    (hc2 : env.create_subnet c = Except.error e)
    (hc3 : ∀ msg, e = Exc.conflict msg → containsSubstr msg overlapPat = false) :
    (createSubnetLoop env tid (xs ++ c :: ys)).2 = Except.error e := by
  induction xs with
  | nil =>
    have hin : ¬ (env.list_subnets tid c).length ≠ 0 := by simp [hc1]
    rw [List.nil_append, createSubnetLoop, if_neg hin, hc2]
    cases e with
    | conflict msg => simp [hc3 msg rfl]
    | notFound => rfl
    | sshTimeout => rfl
    | timeoutException m => rfl
    | assertionError m => rfl
    | other m => rfl
  | cons x rest ih =>
    have hrest : ∀ y ∈ rest, skipOrOverlap env tid y := fun y hy => hxs y (by simp [hy])
    rcases hxs x (by simp) with hne | ⟨msg, hmsg, hsub⟩
    · have hlen : (env.list_subnets tid x).length ≠ 0 := by
        simpa [List.length_eq_zero] using hne
      rw [List.cons_append, createSubnetLoop, if_pos hlen]
      exact ih hrest
    · by_cases hin : (env.list_subnets tid x).length ≠ 0
      · rw [List.cons_append, createSubnetLoop, if_pos hin]
        exact ih hrest
      · rw [List.cons_append, createSubnetLoop, if_neg hin, hmsg]
        simp only [hsub, if_true]
        exact ih hrest

lemma createSubnetLoop_length (env : Env) (tid : String) (l : List Nat) :
    (createSubnetLoop env tid l).1.length ≤ 2 * l.length := by
  induction l with
  | nil => simp [createSubnetLoop]
  | cons c rest ih =>
    by_cases hin : (env.list_subnets tid c).length ≠ 0
    · rw [createSubnetLoop, if_pos hin]
      simp only [List.length_cons]
      omega
    · rw [createSubnetLoop, if_neg hin]
      rcases hcr : env.create_subnet c with e | b
      · cases e with
        | conflict msg =>
          by_cases hov : containsSubstr msg overlapPat = true
          · simp [hov]; omega
          · simp [hov]
        | notFound => simp
        | sshTimeout => simp
        | timeoutException m => simp
        | assertionError m => simp
        | other m => simp
      · simp

lemma create_subnet_fst (env : Env) (s : TestState) (tid : String) (cands : List Nat) :
    (_create_subnet env s tid cands).1 = (createSubnetLoop env tid cands).1 := by
  unfold _create_subnet
  rcases h : (createSubnetLoop env tid cands).2 with e | v
  · simp [h]
  · rcases v with _ | ⟨body, c0⟩
    · simp [h]
    · by_cases hc : body.cidr = c0 <;> simp [h, hc]

/-- C4: `_create_subnet` iterates the candidate cidr blocks in sequence —
a success returns a block from the candidate list that was not already in
use by the tenant (and whose returned body carries exactly that block);
when every candidate is in use or conflicts as overlapping, it terminates
with the "Unable to allocate tenant network" assertion failure; a Conflict
that is not an overlap (or any other exception) on the first candidate that
is actually attempted propagates unchanged; and the work done is bounded by
two remote calls per candidate (no infinite loop). -/
theorem C4_subnet_allocation (env : Env) (s : TestState) (tid : String)
    (cands : List Nat) :
    (∀ sub : Subnet, (_create_subnet env s tid cands).2.2 = Except.ok sub →
      sub.cidr ∈ cands ∧ env.list_subnets tid sub.cidr = []
        ∧ env.create_subnet sub.cidr = Except.ok sub)
    ∧ ((∀ c ∈ cands, skipOrOverlap env tid c) →
      (_create_subnet env s tid cands).2.2
        = Except.error (Exc.assertionError "Unable to allocate tenant network"))
    ∧ (∀ xs c ys e, cands = xs ++ c :: ys →
      (∀ x ∈ xs, skipOrOverlap env tid x) →
      env.list_subnets tid c = [] →
      env.create_subnet c = Except.error e →
      (∀ msg, e = Exc.conflict msg → containsSubstr msg overlapPat = false) →
      (_create_subnet env s tid cands).2.2 = Except.error e)
    ∧ (_create_subnet env s tid cands).1.length ≤ 2 * cands.length := by
  refine ⟨?_, ?_, ?_, ?_⟩
  · intro sub h
    unfold _create_subnet at h
    rcases hl : (createSubnetLoop env tid cands).2 with e | v
    · rw [hl] at h; simp at h
    · rcases v with _ | ⟨body, c0⟩
      · rw [hl] at h; simp at h
      · rw [hl] at h
        by_cases hc : body.cidr = c0
        · simp [hc] at h
          rcases createSubnetLoop_ok_some env tid cands body c0 hl with ⟨hm, h1, h2⟩
          subst h
          rw [hc]
          exact ⟨hm, h1, h2⟩
        · simp [hc] at h
  · intro h
    have := createSubnetLoop_exhausted env tid cands h
    unfold _create_subnet
    rw [this]
  · intro xs c ys e hcands hxs hc1 hc2 hc3
    have := createSubnetLoop_hard_error env tid xs c ys e hxs hc1 hc2 hc3
    rw [← hcands] at this
    unfold _create_subnet
    rw [this]
  · rw [create_subnet_fst]
    exact createSubnetLoop_length env tid cands

def envSubA : Env :=
  { baseEnv with
      list_subnets := fun _ c => if c = 0 then ["existing"] else []
      create_subnet := fun c =>
        if c = 1 then
          Except.error (Exc.conflict
            "Invalid input: requested subnet overlaps with another subnet")
        else Except.ok ⟨"sub-2", c⟩ }

def envSubB : Env :=
  { baseEnv with list_subnets := fun _ _ => ["taken"] }

/-- Witness for C4: with block 0 in use by the tenant, block 1 conflicting
as overlapping and block 2 free, allocation returns block 2 (a fresh,
unused block); with every block in use, allocation fails with the clear
exhaustion error. -/
theorem C4_witness :
    ((⟨"sub-2", 2⟩ : Subnet).cidr ∈ [0, 1, 2]
      ∧ envSubA.list_subnets "t" (⟨"sub-2", 2⟩ : Subnet).cidr = []
      ∧ envSubA.create_subnet (⟨"sub-2", 2⟩ : Subnet).cidr
          = Except.ok (⟨"sub-2", 2⟩ : Subnet))
    ∧ (_create_subnet envSubB setUpState "t" [0, 1]).2.2
        = Except.error (Exc.assertionError "Unable to allocate tenant network") :=
  ⟨(C4_subnet_allocation envSubA setUpState "t" [0, 1, 2]).1 ⟨"sub-2", 2⟩ rfl,
   (C4_subnet_allocation envSubB setUpState "t" [0, 1]).2.1
     (fun c _ => Or.inl (by simp [envSubB, baseEnv]))⟩

/-- Outcome of one loginable-rule combo that the neutron loop tolerates:
either the create succeeds with matching fields, or it raises a Conflict
whose error text says the rule already exists. -/
def comboOk (env : Env) (sg : Secgroup) (pd : String × String) : Prop :=
  (∃ r, env.createSecgroupRule pd.1 pd.2 = Except.ok r ∧ r.direction = pd.2
    ∧ r.tenant_id = sg.tenant_id ∧ r.security_group_id = sg.id)
  ∨ (∃ msg, env.createSecgroupRule pd.1 pd.2 = Except.error (Exc.conflict msg)
    ∧ containsSubstr msg alreadyExistsPat = true)

lemma loginableLoop_ok (env : Env) (sg : Secgroup) (l : List (String × String)) :
    ∀ s : TestState, (∀ pd ∈ l, comboOk env sg pd) →
      ∃ rules, (loginableLoop env s sg l).2.2 = Except.ok rules := by
  induction l with
  | nil => intro s _; exact ⟨[], rfl⟩
  | cons pd rest ih =>
    intro s h
    obtain ⟨p, d⟩ := pd
    have hrest : ∀ x ∈ rest, comboOk env sg x := fun x hx => h x (by simp [hx])
    rcases h (p, d) (by simp) with ⟨r, hr, hdir, hten, hsg⟩ | ⟨msg, hmsg, hsub⟩
    · have hcr : _create_security_group_rule env s sg p d
          = ([Ev.createSecgroupRule d p],
             addCleanup s (CleanupItem.deleteWrapperItem (DeleteCall.secgroupRule r.id)),
             Except.ok r) := by
        simp [_create_security_group_rule, hr, hten, hsg]
      obtain ⟨rules, hrec⟩ := ih
        (addCleanup s (CleanupItem.deleteWrapperItem (DeleteCall.secgroupRule r.id))) hrest
      rcases hl : loginableLoop env
          (addCleanup s (CleanupItem.deleteWrapperItem (DeleteCall.secgroupRule r.id)))
          sg rest with ⟨tr2, s2, r2⟩
      rw [hl] at hrec
      simp only at hrec
      subst hrec
      refine ⟨r :: rules, ?_⟩
      simp [loginableLoop, hcr, hdir, hl]
    · have hcr : _create_security_group_rule env s sg p d
          = ([Ev.createSecgroupRule d p], s, Except.error (Exc.conflict msg)) := by
        simp [_create_security_group_rule, hmsg]
      obtain ⟨rules, hrec⟩ := ih s hrest
      rcases hl : loginableLoop env s sg rest with ⟨tr2, s2, r2⟩
      rw [hl] at hrec
      simp only at hrec
      subst hrec
      refine ⟨rules, ?_⟩
      simp [loginableLoop, hcr, hsub, hl]

lemma loginableLoop_conflict_propagates (env : Env) (sg : Secgroup)
    (xs : List (String × String)) (p d : String) (ys : List (String × String))
    (msg : String) (hmsg : env.createSecgroupRule p d = Except.error (Exc.conflict msg))
    (hsub : containsSubstr msg alreadyExistsPat = false) :
    ∀ s : TestState, (∀ x ∈ xs, comboOk env sg x) →
      (loginableLoop env s sg (xs ++ (p, d) :: ys)).2.2
        = Except.error (Exc.conflict msg) := by
  induction xs with
  | nil =>
    intro s _
    have hcr : _create_security_group_rule env s sg p d
        = ([Ev.createSecgroupRule d p], s, Except.error (Exc.conflict msg)) := by
      simp [_create_security_group_rule, hmsg]
    simp [loginableLoop, hcr, hsub]
  | cons x rest ih =>
    intro s h
    obtain ⟨xp, xd⟩ := x
    have hrest : ∀ y ∈ rest, comboOk env sg y := fun y hy => h y (by simp [hy])
    rcases h (xp, xd) (by simp) with ⟨r, hr, hdir, hten, hsg2⟩ | ⟨m, hm, hs⟩
    · have hcr : _create_security_group_rule env s sg xp xd
          = ([Ev.createSecgroupRule xd xp],
             addCleanup s (CleanupItem.deleteWrapperItem (DeleteCall.secgroupRule r.id)),
             Except.ok r) := by
        simp [_create_security_group_rule, hr, hten, hsg2]
      have hrec := ih
        (addCleanup s (CleanupItem.deleteWrapperItem (DeleteCall.secgroupRule r.id))) hrest
      rcases hl : loginableLoop env
          (addCleanup s (CleanupItem.deleteWrapperItem (DeleteCall.secgroupRule r.id)))
          sg (rest ++ (p, d) :: ys) with ⟨tr2, s2, r2⟩
      rw [hl] at hrec
      simp only at hrec
      subst hrec
      simp [loginableLoop, hcr, hdir, hl]
    · have hcr : _create_security_group_rule env s sg xp xd
          = ([Ev.createSecgroupRule xd xp], s, Except.error (Exc.conflict m)) := by
        simp [_create_security_group_rule, hm]
      have hrec := ih s hrest
      rcases hl : loginableLoop env s sg (rest ++ (p, d) :: ys) with ⟨tr2, s2, r2⟩
      rw [hl] at hrec
      simp only at hrec
      subst hrec
      simp [loginableLoop, hcr, hs, hl]

def envC6nova : Env :=
  { baseEnv with novaCreateRule := fun p =>
      if p = "icmp" then Except.error (Exc.conflict "Security group rule already exists")
      else Except.ok ("nr-" ++ p) }

/-- C6 counterexample: the nova-network
`ScenarioTest._create_loginable_secgroup_rule` (manager.py 245-281) has no
Conflict handling, so a duplicate-rule Conflict on the icmp ruleset fails
the whole call — refuting the claim that loginable-rule creation treats an
"already exists" Conflict as success. -/
theorem C6_counterexample :
    (nova_create_loginable_secgroup_rule envC6nova setUpState).2.2
      = Except.error (Exc.conflict "Security group rule already exists") := by
  rfl

/-- C6 amended: the neutron
`NetworkScenarioTest._create_loginable_secgroup_rule` tolerates a Conflict
whose error text says the rule already exists (the combo is skipped and the
loop continues, returning ok), while a Conflict with any other error text
on the first attempted combo propagates as a failure; the nova-network
variant (see the counterexample) propagates every Conflict. -/
theorem C6_loginable_conflict_tolerance (env : Env) (s : TestState) (sg : Secgroup) :
    ((∀ pd ∈ loginableCombos, comboOk env sg pd) →
      ∃ rules, (_create_loginable_secgroup_rule env s sg).2.2 = Except.ok rules)
    ∧ (∀ xs p d ys msg, loginableCombos = xs ++ (p, d) :: ys →
        (∀ x ∈ xs, comboOk env sg x) →
        env.createSecgroupRule p d = Except.error (Exc.conflict msg) →
        containsSubstr msg alreadyExistsPat = false →
        (_create_loginable_secgroup_rule env s sg).2.2
          = Except.error (Exc.conflict msg)) := by
  constructor
  · intro h
    exact loginableLoop_ok env sg loginableCombos s h
  · intro xs p d ys msg hc hxs hmsg hsub
    unfold _create_loginable_secgroup_rule
    rw [hc]
    exact loginableLoop_conflict_propagates env sg xs p d ys msg hmsg hsub s hxs

def envC6dup : Env :=
  { baseEnv with createSecgroupRule := fun p d =>
      if p = "tcp" ∧ d = "egress" then
        Except.error (Exc.conflict
          "Conflict: Security group rule already exists. Rule id is 42.")
      else Except.ok ⟨"rule-" ++ p ++ d, d, p, "tenant-1", "sg-1"⟩ }

def envC6bad : Env :=
  { baseEnv with createSecgroupRule := fun _ _ =>
      Except.error (Exc.conflict "Quota exceeded for resources") }

/-- Witness for C6's amended claim: a duplicate-rule Conflict on the
tcp/egress combo is tolerated and the call still succeeds, while a Conflict
with unrelated text on the first combo propagates. -/
theorem C6_witness :
    (∃ rules, (_create_loginable_secgroup_rule envC6dup setUpState
        ⟨"sg-1", "tenant-1"⟩).2.2 = Except.ok rules)
    ∧ (_create_loginable_secgroup_rule envC6bad setUpState
        ⟨"sg-1", "tenant-1"⟩).2.2
      = Except.error (Exc.conflict "Quota exceeded for resources") :=
  ⟨(C6_loginable_conflict_tolerance envC6dup setUpState ⟨"sg-1", "tenant-1"⟩).1
    (by
      intro pd hpd
      simp only [loginableCombos] at hpd
      fin_cases hpd
      · exact Or.inl ⟨⟨"rule-tcpingress", "ingress", "tcp", "tenant-1", "sg-1"⟩,
          rfl, rfl, rfl, rfl⟩
      · exact Or.inr ⟨"Conflict: Security group rule already exists. Rule id is 42.",
          rfl, by decide⟩
      · exact Or.inl ⟨⟨"rule-icmpingress", "ingress", "icmp", "tenant-1", "sg-1"⟩,
          rfl, rfl, rfl, rfl⟩
      · exact Or.inl ⟨⟨"rule-icmpegress", "egress", "icmp", "tenant-1", "sg-1"⟩,
          rfl, rfl, rfl, rfl⟩),
   (C6_loginable_conflict_tolerance envC6bad setUpState ⟨"sg-1", "tenant-1"⟩).2
     [] "tcp" "ingress" [("tcp", "egress"), ("icmp", "ingress"), ("icmp", "egress")]
     "Quota exceeded for resources" rfl (by simp) rfl (by decide)⟩

lemma create_server_ok (env : Env) (s : TestState) (name : String)
    (h : (env.getServer (env.createServer name).id).name = name) :
    create_server env s name false true
      = ([Ev.createServer name, Ev.getServer (env.createServer name).id],
         addCleanup_with_wait
           (addCleanup s (CleanupItem.waitServerTerminationItem (env.createServer name).id))
           WaiterKind.serverTermination (env.createServer name).id "server_id"
           (CleanupItem.deleteWrapperItem (DeleteCall.server (env.createServer name).id)),
         Except.ok (env.getServer (env.createServer name).id)) := by
  simp [create_server, h]

def envC5 : Env := { baseEnv with waitNodeOk := fun _ => false }

/-- C5 counterexample: when the node-association stage times out,
`boot_instance` raises a `TimeoutException` whose message names only the
instance id — it names neither the node, nor any state attribute, nor any
target state, refuting the claim that every stage's timeout message names
the node, the state attribute and the target state(s). -/
theorem C5_counterexample :
    (boot_instance envC5 setUpState "T").2.2
      = Except.error (Exc.timeoutException (waitNodeMsg "srv-1"))
    ∧ waitNodeMsg "srv-1"
      = "Timed out waiting to get Ironic node by instance id srv-1"
    ∧ containsSubstr (waitNodeMsg "srv-1") "state" = false := by
  refine ⟨rfl, by decide, by decide⟩

/-- C5 amended: the boot sequence performs its stages in exactly the stated
order — create server without waiting for boot, wait for node association
(association_timeout), wait for power 'power on' (power_timeout), wait for
provision state in {wait call-back, active} (timeout 15), wait for
provision state 'active' (active_timeout), wait for server status ACTIVE —
each with its own timeout; a power/provision stage that times out raises a
TimeoutException naming the node, the state attribute and the target
state(s), while the association stage's timeout message names only the
instance id. -/
theorem C5_boot_sequence (env : Env) (s : TestState) (name : String)
    (inst : Server) (node : Node)
    (hname : (env.getServer (env.createServer name).id).name = name)
    (hinst : inst = env.getServer (env.createServer name).id)
    (hnode : node = env.nodeOf inst.id) :
    (env.waitNodeOk inst.id = true →
      env.nodeStateOk node.uuid "power_state" [POWER_ON] env.power_timeout = true →
      env.nodeStateOk node.uuid "provision_state" [PROV_DEPLOYWAIT, PROV_ACTIVE] 15 = true →
      env.nodeStateOk node.uuid "provision_state" [PROV_ACTIVE] env.active_timeout = true →
      env.waitServerStatusExc inst.id "ACTIVE" = none →
      (boot_instance env s name).1
        = [Ev.createServer name, Ev.getServer (env.createServer name).id,
           Ev.waitNodeAssoc inst.id env.association_timeout,
           Ev.getNodeByInstance inst.id,
           Ev.checkNodeState node.uuid "power_state" [POWER_ON] env.power_timeout,
           Ev.checkNodeState node.uuid "provision_state" [PROV_DEPLOYWAIT, PROV_ACTIVE] 15,
           Ev.checkNodeState node.uuid "provision_state" [PROV_ACTIVE] env.active_timeout,
           Ev.waitServerStatus inst.id "ACTIVE",
           Ev.getNodeByInstance inst.id, Ev.getServer inst.id])
    ∧ (env.waitNodeOk inst.id = true →
      env.nodeStateOk node.uuid "power_state" [POWER_ON] env.power_timeout = false →
      (boot_instance env s name).2.2
        = Except.error (Exc.timeoutException
            (nodeStateMsg node.uuid "power_state" [POWER_ON]))
      ∧ (boot_instance env s name).1
        = [Ev.createServer name, Ev.getServer (env.createServer name).id,
           Ev.waitNodeAssoc inst.id env.association_timeout,
           Ev.getNodeByInstance inst.id,
           Ev.checkNodeState node.uuid "power_state" [POWER_ON] env.power_timeout])
    ∧ (env.waitNodeOk inst.id = false →
      (boot_instance env s name).2.2
        = Except.error (Exc.timeoutException (waitNodeMsg inst.id))) := by
  subst hinst
  subst hnode
  refine ⟨?_, ?_, ?_⟩
  · intro h1 h2 h3 h4 h5
    simp [boot_instance, create_server_ok env s name hname, wait_node,
      wait_power_state, wait_provisioning_state, _node_state_timeout, h1, h2, h3, h4, h5]
  · intro h1 h2
    constructor <;>
      simp [boot_instance, create_server_ok env s name hname, wait_node,
        wait_power_state, wait_provisioning_state, _node_state_timeout, h1, h2]
  · intro h1
    simp [boot_instance, create_server_ok env s name hname, wait_node, h1]

/-- Witness for C5's amended claim: with every stage succeeding the full
stage trace appears in order; with association failing the association
timeout message is raised. -/
theorem C5_witness :
    (boot_instance baseEnv setUpState "T").1
      = [Ev.createServer "T", Ev.getServer "srv-1",
         Ev.waitNodeAssoc "srv-1" 10, Ev.getNodeByInstance "srv-1",
         Ev.checkNodeState "node-1" "power_state" [POWER_ON] 20,
         Ev.checkNodeState "node-1" "provision_state" [PROV_DEPLOYWAIT, PROV_ACTIVE] 15,
         Ev.checkNodeState "node-1" "provision_state" [PROV_ACTIVE] 30,
         Ev.waitServerStatus "srv-1" "ACTIVE",
         Ev.getNodeByInstance "srv-1", Ev.getServer "srv-1"]
    ∧ (boot_instance envC5 setUpState "T").2.2
      = Except.error (Exc.timeoutException (waitNodeMsg "srv-1")) :=
  ⟨(C5_boot_sequence baseEnv setUpState "T" ⟨"srv-1", "T"⟩ ⟨"node-1"⟩
      rfl rfl rfl).1 rfl rfl rfl rfl rfl,
   (C5_boot_sequence envC5 setUpState "T" ⟨"srv-1", "T"⟩ ⟨"node-1"⟩
      rfl rfl rfl).2.2 rfl⟩

def envC7 : Env :=
  { baseEnv with
      pingOk := fun _ _ => false
      list_servers := Except.ok [⟨"s1", "x"⟩]
      get_console_output := fun _ => Except.error (Exc.other "console boom") }

/-- C7 counterexample: the diagnostic capture inside
`check_public_network_connectivity`'s exception handler is itself a set of
remote calls with no exception guard; when `get_console_output` raises, its
exception propagates instead of the original connectivity failure, masking
it — refuting "this diagnostic capture never itself raises an error that
masks or replaces the original failure". -/
theorem C7_counterexample :
    (check_vm_connectivity envC7 "10.0.0.5" true).2
      = Except.error (Exc.assertionError
          "Timed out waiting for 10.0.0.5 to become reachable")
    ∧ (check_public_network_connectivity envC7 "10.0.0.5" true []).2
      = Except.error (Exc.other "console boom") := by
  refine ⟨rfl, rfl⟩

/-- C7 amended: when the connectivity check fails and the console-output
capture itself succeeds, the checker re-raises the original exception after
capturing the console output and (unless the failure is an SSH timeout, for
which net debug already ran during ssh init) the network debug snapshot; a
failure inside the diagnostic capture propagates instead of the original. -/
theorem C7_capture_then_reraise (env : Env) (ip : String) (sc : Bool)
    (servers : List Server) (e : Exc)
    (hvm : (check_vm_connectivity env ip sc).2 = Except.error e)
    (hcap : (_log_console_output env servers).2 = Except.ok ()) :
    (check_public_network_connectivity env ip sc servers).2 = Except.error e
    ∧ (check_public_network_connectivity env ip sc servers).1
      = (check_vm_connectivity env ip sc).1 ++ (_log_console_output env servers).1
        ++ (if e = Exc.sshTimeout then [] else [Ev.logNetDebug]) := by
  rcases hv : check_vm_connectivity env ip sc with ⟨tr, r⟩
  rw [hv] at hvm
  simp only at hvm
  subst hvm
  rcases hc : _log_console_output env servers with ⟨ctr, cr⟩
  rw [hc] at hcap
  simp only at hcap
  subst hcap
  by_cases he : e = Exc.sshTimeout
  · simp [check_public_network_connectivity, hv, hc, he]
  · simp [check_public_network_connectivity, hv, hc, he]

def envC7w : Env := { baseEnv with pingOk := fun _ _ => false }

/-- Witness for C7's amended claim: a failed ping assertion is re-raised
after the console listing and the net-debug snapshot. -/
theorem C7_witness :
    (check_public_network_connectivity envC7w "10.0.0.5" true []).2
      = Except.error (Exc.assertionError
          "Timed out waiting for 10.0.0.5 to become reachable")
    ∧ (check_public_network_connectivity envC7w "10.0.0.5" true []).1
      = (check_vm_connectivity envC7w "10.0.0.5" true).1
        ++ (_log_console_output envC7w []).1
        ++ (if (Exc.assertionError "Timed out waiting for 10.0.0.5 to become reachable")
              = Exc.sshTimeout then [] else [Ev.logNetDebug]) :=
  C7_capture_then_reraise envC7w "10.0.0.5" true []
    (Exc.assertionError "Timed out waiting for 10.0.0.5 to become reachable") rfl rfl

end Tempest
